import Mathlib

/-!
Verification of the attribute CRUD module of the tamr-client repository
(src/tamr_client/attributes/attribute.py), via a shallow embedding.

Decoded JSON values (the Python objects produced by response.json()) are
modelled by the inductive type Json below; Python None and JSON null are
the same value, so both are Json.null.  A Python dict is modelled as an
insertion-ordered association list.  HTTP traffic is modelled by an
explicit Session function from requests to responses, and each operation
returns, next to its result, the list of requests it issued, so that
"no request was sent" is a provable statement.
-/

/-- A decoded JSON value (the result of Python json decoding; Python None
and JSON null coincide).  Numbers are modelled as integers: no claim
involves fractional numeric payloads. -/
inductive Json where
  | null : Json
  | bool : Bool → Json
  | num : Int → Json
  | str : String → Json
  | arr : List Json → Json
  | obj : List (String × Json) → Json
deriving Repr

/-- A Python dict decoded from JSON: insertion-ordered association list. -/
abbrev JsonDict := List (String × Json)

/-- Lookup of a key in a dict, as Python dict.get: absent keys give
Python None, i.e. Json.null (a present null value is indistinguishable
from an absent key, exactly as in Python). -/
def Json.dget (d : JsonDict) (k : String) : Json :=
  match d.lookup k with
  | some v => v
  | none => Json.null

/-- Whether a key is present in a dict (Python: k in d). -/
def Json.hasKey (d : JsonDict) (k : String) : Bool :=
  (d.lookup k).isSome

/-- The errors the module can surface.  The first three mirror the
exception classes AttributeNotFound, AttributeExists and
ReservedAttributeName of the source; httpError is the generic transport
failure raised for a non-2xx status; keyError is the malformed-input
condition raised when a required JSON key is absent (Python KeyError);
typeError stands for indexing a non-dict by a string key. -/
inductive TamrError where
  | attributeNotFound : String → TamrError
  | attributeExists : String → TamrError
  | reservedAttributeName : String → TamrError
  | httpError : Nat → TamrError
  | keyError : String → TamrError
  | typeError : TamrError
deriving Repr, DecidableEq

/-- Required indexing cp[k] on a decoded JSON value: a missing key is a
KeyError, a non-dict value a TypeError (as in Python). -/
def Json.pyIndex : Json → String → Except TamrError Json
  | .obj d, k =>
      match d.lookup k with
      | some v => .ok v
      | none => .error (.keyError k)
  | _, _ => .error .typeError

/-- How a decoded JSON value prints inside a Python f-string (str(x)).
Only the string case is exercised by the claims; the other cases follow
Python's str of the corresponding decoded objects, with a simple
canonical rendering for containers. -/
def Json.fstr : Json → String
  | .null => "None"
  | .bool true => "True"
  | .bool false => "False"
  | .num n => toString n
  | .str s => s
  | .arr _ => "[...]"
  | .obj _ => "{...}"

/-- Modelled from the spec: the URL value type of tamr_client.url — an
immutable, path-composable address (the source manipulates only its path
field, via dataclasses.replace, and its str rendering).  Fields other
than the path are bundled into a base component that replace preserves. -/
structure URL where
  base : String
  path : String
deriving Repr, DecidableEq

/-- Python str(url): the rendered address. -/
def URL.toStr (u : URL) : String := u.base ++ u.path

/-- Modelled from the spec: the Dataset value of tamr_client.datasets —
an external parent resource, opaque to this module beyond its URL. -/
structure Dataset where
  url : URL
deriving Repr, DecidableEq

/-- Modelled from the spec: AttributeType of tamr_client.attributes.
attribute_type — an external, possibly composite type descriptor, opaque
to this module beyond serialize/deserialize; modelled as a wrapper
around its wire JSON, so that its serialization round-trips. -/
structure AttributeType where
  json : Json
deriving Repr

namespace attribute_type

/-- Modelled from the spec: AttributeType serialization (delegated). -/
def to_json (t : AttributeType) : Json := t.json

/-- Modelled from the spec: AttributeType deserialization (delegated). -/
def from_json (j : Json) : AttributeType := ⟨j⟩

end attribute_type

/-- The reserved attribute names (_RESERVED_NAMES in the source). -/
def _RESERVED_NAMES : List String :=
  [ "origin_source_name"
  , "tamr_id"
  , "origin_entity_id"
  , "clusterId"
  , "originSourceId"
  , "originEntityId"
  , "sourceId"
  , "entityId"
  , "suggestedClusterId"
  , "verificationType"
  , "verifiedClusterId" ]

/-- The Attribute dataclass.  Fields name, is_nullable and description
hold decoded JSON values, as the Python constructor stores whatever the
wire dict contained (description is Python None, i.e. Json.null, when
the key is absent).  The field _json (the raw payload) is excluded from
the dataclass equality in the source; the claims compare the other
fields individually, so no equality instance is needed here. -/
structure Attribute where
  url : URL
  name : Json
  type : AttributeType
  is_nullable : Json
  _json : JsonDict
  description : Json
deriving Repr

/-- An HTTP request, as issued through the Session. -/
inductive Request where
  | get : String → Request
  | post : String → Json → Request
  | put : String → Json → Request
  | delete : String → Request
deriving Repr

/-- An HTTP response: an integer status code and a decoded JSON body. -/
structure Response where
  status_code : Nat
  body : Json
deriving Repr

/-- Modelled from the spec: the external Session transport capability —
a function from requests to responses.  (The spec's get/post/put/delete
verbs are the four Request constructors.) -/
def Session := Request → Response

/-- Whether a status code is in the 2xx success range. -/
def is2xx (n : Nat) : Bool := 200 ≤ n && n < 300

/-- Modelled from the spec: response.successful of tamr_client.response —
raises a transport-level error for any status not in the 2xx range. -/
def successful (r : Response) : Except TamrError Response :=
  if is2xx r.status_code then .ok r else .error (.httpError r.status_code)

/-- Deserialize an attribute from decoded JSON data (_from_json in the
source).  The source first takes a defensive deepcopy of the data, which
is the identity in this pure model.  The required keys are read in the
Python argument evaluation order: name, description (optional, via
dict.get), isNullable, type. -/
def _from_json (url : URL) (data : Json) : Except TamrError Attribute := do
  let name ← data.pyIndex "name"
  let description :=
    match data with
    | .obj d => Json.dget d "description"
    | _ => Json.null
  let is_nullable ← data.pyIndex "isNullable"
  let tyj ← data.pyIndex "type"
  let cp : JsonDict := match data with | .obj d => d | _ => []
  .ok { url := url
      , name := name
      , type := attribute_type.from_json tyj
      , is_nullable := is_nullable
      , _json := cp
      , description := description }

/-- Serialize an attribute into JSON (to_json in the source): name, type
and isNullable always; description only when it is not None. -/
def to_json (attr : Attribute) : JsonDict :=
  let d : JsonDict :=
    [ ("name", attr.name)
    , ("type", attribute_type.to_json attr.type)
    , ("isNullable", attr.is_nullable) ]
  match attr.description with
  | Json.null => d
  | _ => d ++ [("description", attr.description)]

/-- Get attribute by URL (_from_url in the source): GET, map 404 to
AttributeNotFound carrying str(url), let successful reject any other
non-2xx status, and deserialize the body on success.  The second
component is the list of requests issued. -/
def _from_url (session : Session) (url : URL) :
    Except TamrError Attribute × List Request :=
  let req := Request.get url.toStr
  let r := session req
  if r.status_code = 404 then
    (.error (.attributeNotFound url.toStr), [req])
  else
    match successful r with
    | .error e => (.error e, [req])
    | .ok r2 => (_from_json url r2.body, [req])

/-- Get attribute by resource ID (from_resource_id in the source): the
item URL is the dataset URL with "/attributes/" and the id appended to
its path. -/
def from_resource_id (session : Session) (dataset : Dataset) (id : String) :
    Except TamrError Attribute × List Request :=
  let url : URL := { dataset.url with path := dataset.url.path ++ "/attributes/" ++ id }
  _from_url session url

/-- The body of the loop of from_dataset_all: for each element of the
collection response, id is its "name" field (a KeyError if absent), the
item URL appends "/" and str(id) to the collection URL path, and the
element is deserialized at that URL; the results are collected in
order. -/
def fromDatasetLoop (attrs_url : URL) : List Json → Except TamrError (List Attribute)
  | [] => .ok []
  | j :: rest => do
      let idj ← j.pyIndex "name"
      let attr_url : URL := { attrs_url with path := attrs_url.path ++ "/" ++ idj.fstr }
      let a ← _from_json attr_url j
      let rest2 ← fromDatasetLoop attrs_url rest
      .ok (a :: rest2)

/-- Get all attributes from a dataset (from_dataset_all in the source):
GET the collection URL (dataset URL path ++ "/attributes"), reject any
non-2xx status, then run the deserialization loop over the elements of
the response body (a non-array body fails: Python would not iterate a
JSON object or scalar into attribute dicts). -/
def from_dataset_all (session : Session) (dataset : Dataset) :
    Except TamrError (List Attribute) × List Request :=
  let attrs_url : URL := { dataset.url with path := dataset.url.path ++ "/attributes" }
  let req := Request.get attrs_url.toStr
  let r := session req
  match successful r with
  | .error e => (.error e, [req])
  | .ok r2 =>
      match r2.body with
      | .arr items => (fromDatasetLoop attrs_url items, [req])
      | _ => (.error .typeError, [req])

/-- The JSON value sent for an optional string argument: Python None
serializes as JSON null. -/
def optStr : Option String → Json
  | some s => Json.str s
  | none => Json.null

/-- Create an attribute without the reserved-name check (_create in the
source): POST the request body to the collection URL, map 409 to
AttributeExists carrying the prospective item URL (collection URL ++ "/"
++ name), reject any other non-2xx status, and deserialize the response
body at the prospective item URL on success. -/
def _create (session : Session) (dataset : Dataset) (name : String)
    (is_nullable : Bool) (type : AttributeType) (description : Option String) :
    Except TamrError Attribute × List Request :=
  let attrs_url : URL := { dataset.url with path := dataset.url.path ++ "/attributes" }
  let url : URL := { attrs_url with path := attrs_url.path ++ "/" ++ name }
  let body0 : JsonDict :=
    [ ("name", Json.str name)
    , ("type", attribute_type.to_json type)
    , ("isNullable", Json.bool is_nullable) ]
  let body : JsonDict :=
    match description with
    | some d => body0 ++ [("description", Json.str d)]
    | none => body0
  let req := Request.post attrs_url.toStr (Json.obj body)
  let r := session req
  if r.status_code = 409 then
    (.error (.attributeExists url.toStr), [req])
  else
    match successful r with
    | .error e => (.error e, [req])
    | .ok r2 => (_from_json url r2.body, [req])

/-- Create an attribute (create in the source): fail with
ReservedAttributeName before any request when the name is reserved,
otherwise delegate to _create. -/
def create (session : Session) (dataset : Dataset) (name : String)
    (is_nullable : Bool) (type : AttributeType) (description : Option String) :
    Except TamrError Attribute × List Request :=
  if name ∈ _RESERVED_NAMES then
    (.error (.reservedAttributeName name), [])
  else
    _create session dataset name is_nullable type description

/-- Update an existing attribute (update in the source): PUT the body
containing exactly the description (null when absent) to the attribute's
URL, map 404 to AttributeNotFound carrying that URL, reject any other
non-2xx status, and deserialize the response body at the attribute's URL
on success. -/
def update (session : Session) (attr : Attribute)
    (description : Option String) :
    Except TamrError Attribute × List Request :=
  let updates := Json.obj [("description", optStr description)]
  let req := Request.put attr.url.toStr updates
  let r := session req
  if r.status_code = 404 then
    (.error (.attributeNotFound attr.url.toStr), [req])
  else
    match successful r with
    | .error e => (.error e, [req])
    | .ok r2 => (_from_json attr.url r2.body, [req])

/-- Delete an existing attribute (delete in the source): DELETE the
attribute's URL, map 404 to AttributeNotFound carrying that URL, reject
any other non-2xx status, and return no value on success. -/
def delete (session : Session) (attr : Attribute) :
    Except TamrError Unit × List Request :=
  let req := Request.delete attr.url.toStr
  let r := session req
  if r.status_code = 404 then
    (.error (.attributeNotFound attr.url.toStr), [req])
  else
    match successful r with
    | .error e => (.error e, [req])
    | .ok _ => (.ok (), [req])

/-- Modelled from the spec: attribute_url of the Identity and Addressing
component — dataset URL with "/attributes/" and the id appended to its
path (the expression of from_resource_id). -/
def attribute_url (dataset : Dataset) (id : String) : URL :=
  { dataset.url with path := dataset.url.path ++ "/attributes/" ++ id }

/-- Modelled from the spec: collection_url of the Identity and Addressing
component — dataset URL with "/attributes" appended to its path. -/
def collection_url (dataset : Dataset) : URL :=
  { dataset.url with path := dataset.url.path ++ "/attributes" }

/-- Modelled from the spec: item_url of the Identity and Addressing
component — collection URL with "/" and the name appended to its path. -/
def item_url (c : URL) (name : String) : URL :=
  { c with path := c.path ++ "/" ++ name }

/-- The request body built by _create: name, type, isNullable, and the
description only when one was supplied. -/
def create_body (name : String) (is_nullable : Bool) (type : AttributeType)
    (description : Option String) : JsonDict :=
  let body0 : JsonDict :=
    [ ("name", Json.str name)
    , ("type", attribute_type.to_json type)
    , ("isNullable", Json.bool is_nullable) ]
  match description with
  | some d => body0 ++ [("description", Json.str d)]
  | none => body0

/-- The body and trace of _create coincide with the statement-side
helpers: _create always issues exactly one POST of create_body to the
collection URL. -/
lemma _create_trace (s : Session) (d : Dataset) (name : String)
    (n : Bool) (t : AttributeType) (descr : Option String) :
    (_create s d name n t descr).2
      = [Request.post (collection_url d).toStr
          (Json.obj (create_body name n t descr))] := by
  unfold _create create_body collection_url
  cases descr <;> dsimp only <;> split <;> first | rfl | (split <;> rfl)

/-- C8: the serialized JSON of an attribute contains the key
"description" exactly when the attribute's description is not None
(including the empty string), and always contains "name", "type" and
"isNullable" with the attribute's values. -/
theorem C8_to_json_keys (a : Attribute) :
    (Json.hasKey (to_json a) "description" = true ↔ a.description ≠ Json.null)
    ∧ (to_json a).lookup "name" = some a.name
    ∧ (to_json a).lookup "type" = some (attribute_type.to_json a.type)
    ∧ (to_json a).lookup "isNullable" = some a.is_nullable := by
  cases h : a.description <;> simp [to_json, Json.hasKey, List.lookup, h]

/-- A concrete attribute used to instantiate universally quantified
theorems at a specific input. -/
def sampleAttr : Attribute :=
  { url := { base := "http://localhost:9100/api/versioned/v1", path := "/datasets/1/attributes/attr" }
  , name := Json.str "attr"
  , type := ⟨Json.obj [("baseType", Json.str "STRING")]⟩
  , is_nullable := Json.bool false
  , _json := []
  , description := Json.str "" }

/-- C8 instantiated: an empty-string description is serialized (the key
is present). -/
theorem C8_to_json_keys_witness :
    Json.hasKey (to_json sampleAttr) "description" = true :=
  (C8_to_json_keys sampleAttr).1.mpr (fun h => Json.noConfusion h)

/-- C4: deserializing the serialization of any attribute at any URL
succeeds and reproduces name, type, is_nullable and description, with
the externally supplied URL, provided AttributeType serialization
round-trips on the attribute's type. -/
theorem C4_roundtrip (u : URL) (a : Attribute)
    (h : attribute_type.from_json (attribute_type.to_json a.type) = a.type) :
    ∃ b, _from_json u (Json.obj (to_json a)) = .ok b
      ∧ b.url = u ∧ b.name = a.name ∧ b.type = a.type
      ∧ b.is_nullable = a.is_nullable ∧ b.description = a.description := by
  cases hd : a.description <;>
    simp [to_json, _from_json, Json.pyIndex, Json.dget, List.lookup, hd, h,
      bind, Except.bind]

/-- A concrete attribute without a description, i.e. description None. -/
def sampleAttrNoDesc : Attribute :=
  { sampleAttr with description := Json.null }

/-- C4 instantiated at concrete attributes, with and without a
description: the round-trip hypothesis on AttributeType holds and the
round-trip succeeds. -/
theorem C4_roundtrip_witness :
    (∃ b, _from_json sampleAttr.url (Json.obj (to_json sampleAttr)) = .ok b
      ∧ b.url = sampleAttr.url ∧ b.name = sampleAttr.name
      ∧ b.type = sampleAttr.type ∧ b.is_nullable = sampleAttr.is_nullable
      ∧ b.description = sampleAttr.description)
    ∧ (∃ b, _from_json sampleAttrNoDesc.url (Json.obj (to_json sampleAttrNoDesc)) = .ok b
      ∧ b.url = sampleAttrNoDesc.url ∧ b.name = sampleAttrNoDesc.name
      ∧ b.type = sampleAttrNoDesc.type ∧ b.is_nullable = sampleAttrNoDesc.is_nullable
      ∧ b.description = sampleAttrNoDesc.description) :=
  ⟨C4_roundtrip sampleAttr.url sampleAttr rfl,
   C4_roundtrip sampleAttrNoDesc.url sampleAttrNoDesc rfl⟩

/-- C7: deserialization of a JSON object without a "description" key
succeeds with description None whenever the required keys are present,
and a JSON object without the required "isNullable" key never
deserializes to an attribute: it fails with a KeyError on a required
key. -/
theorem C7_optional_and_required_keys (u : URL) (d : JsonDict) :
    ((d.lookup "name").isSome = true → (d.lookup "isNullable").isSome = true →
     (d.lookup "type").isSome = true → d.lookup "description" = none →
      ∃ b, _from_json u (Json.obj d) = .ok b ∧ b.description = Json.null)
    ∧ (d.lookup "isNullable" = none →
      ∃ k, _from_json u (Json.obj d) = .error (.keyError k)) := by
  constructor
  · intro hn hi ht hd
    obtain ⟨vn, hvn⟩ := Option.isSome_iff_exists.mp hn
    obtain ⟨vi, hvi⟩ := Option.isSome_iff_exists.mp hi
    obtain ⟨vt, hvt⟩ := Option.isSome_iff_exists.mp ht
    exact ⟨⟨u, vn, attribute_type.from_json vt, vi, d, Json.null⟩,
      by simp [_from_json, Json.pyIndex, Json.dget, hvn, hvi, hvt, hd,
        bind, Except.bind], rfl⟩
  · intro hi
    cases hn : d.lookup "name" with
    | none =>
        exact ⟨"name", by simp [_from_json, Json.pyIndex, hn, bind, Except.bind]⟩
    | some vn =>
        exact ⟨"isNullable",
          by simp [_from_json, Json.pyIndex, hn, hi, bind, Except.bind]⟩

/-- C7 instantiated: a concrete body without "description" deserializes
with description None, and a concrete body without "isNullable" fails
with a KeyError. -/
theorem C7_witness :
    (∃ b, _from_json sampleAttr.url
        (Json.obj [ ("name", Json.str "attr")
                  , ("isNullable", Json.bool true)
                  , ("type", Json.str "STRING") ]) = .ok b
      ∧ b.description = Json.null)
    ∧ (∃ k, _from_json sampleAttr.url
        (Json.obj [("name", Json.str "attr"), ("type", Json.str "STRING")])
          = .error (.keyError k)) :=
  ⟨(C7_optional_and_required_keys sampleAttr.url _).1 rfl rfl rfl rfl,
   (C7_optional_and_required_keys sampleAttr.url _).2 rfl⟩

/-- C10: the PUT request issued by update is determined by the attribute
URL and the description argument alone — its body is exactly the object
with the single key "description" (null when no description is given),
whatever the rest of the attribute holds. -/
theorem C10_update_request (s : Session) (a : Attribute) (descr : Option String) :
    (update s a descr).2
      = [Request.put a.url.toStr (Json.obj [("description", optStr descr)])]
    ∧ (update s a none).2
      = [Request.put a.url.toStr (Json.obj [("description", Json.null)])] := by
  constructor <;>
  · unfold update
    dsimp only
    split
    · rfl
    · split <;> rfl

/-- A 2xx status is never 404. -/
lemma is2xx_ne_404 (n : Nat) (h : is2xx n = true) : n ≠ 404 := by
  intro he
  subst he
  exact absurd h (by decide)

/-- C1: for fetch-by-id (at dataset URL ++ "/attributes/" ++ id), update
(at the attribute's URL) and delete (at the attribute's URL), a 404
response maps to AttributeNotFound carrying exactly the request URL, any
other non-2xx response maps to the generic transport failure with the
response status, and a 2xx response succeeds — fetch and update return
the deserialization of the response body at the request URL, delete
returns no value. -/
theorem C1_item_status_mapping (s : Session) (d : Dataset) (id : String)
    (a : Attribute) (descr : Option String) :
    (((s (Request.get (attribute_url d id).toStr)).status_code = 404 →
       from_resource_id s d id
         = (.error (.attributeNotFound (attribute_url d id).toStr),
            [Request.get (attribute_url d id).toStr]))
     ∧ ((s (Request.get (attribute_url d id).toStr)).status_code ≠ 404 →
        is2xx (s (Request.get (attribute_url d id).toStr)).status_code = false →
       (from_resource_id s d id).1
         = .error (.httpError (s (Request.get (attribute_url d id).toStr)).status_code))
     ∧ (is2xx (s (Request.get (attribute_url d id).toStr)).status_code = true →
       (from_resource_id s d id).1
         = _from_json (attribute_url d id)
             (s (Request.get (attribute_url d id).toStr)).body))
    ∧ (((s (Request.put a.url.toStr (Json.obj [("description", optStr descr)]))).status_code = 404 →
       (update s a descr).1 = .error (.attributeNotFound a.url.toStr))
     ∧ ((s (Request.put a.url.toStr (Json.obj [("description", optStr descr)]))).status_code ≠ 404 →
        is2xx (s (Request.put a.url.toStr (Json.obj [("description", optStr descr)]))).status_code = false →
       (update s a descr).1
         = .error (.httpError (s (Request.put a.url.toStr (Json.obj [("description", optStr descr)]))).status_code))
     ∧ (is2xx (s (Request.put a.url.toStr (Json.obj [("description", optStr descr)]))).status_code = true →
       (update s a descr).1
         = _from_json a.url
             (s (Request.put a.url.toStr (Json.obj [("description", optStr descr)]))).body))
    ∧ (((s (Request.delete a.url.toStr)).status_code = 404 →
       (delete s a).1 = .error (.attributeNotFound a.url.toStr))
     ∧ ((s (Request.delete a.url.toStr)).status_code ≠ 404 →
        is2xx (s (Request.delete a.url.toStr)).status_code = false →
       (delete s a).1
         = .error (.httpError (s (Request.delete a.url.toStr)).status_code))
     ∧ (is2xx (s (Request.delete a.url.toStr)).status_code = true →
       (delete s a).1 = .ok ())) := by
  refine ⟨⟨?_, ?_, ?_⟩, ⟨?_, ?_, ?_⟩, ⟨?_, ?_, ?_⟩⟩
  · intro h
    simp only [attribute_url] at h ⊢
    simp [from_resource_id, _from_url, h]
  · intro h hN
    simp only [attribute_url] at h hN ⊢
    simp [from_resource_id, _from_url, successful, h, hN]
  · intro h2
    have hne := is2xx_ne_404 _ h2
    simp only [attribute_url] at h2 hne ⊢
    simp [from_resource_id, _from_url, successful, hne, h2]
  · intro h
    simp [update, h]
  · intro h hN
    simp [update, successful, h, hN]
  · intro h2
    have hne := is2xx_ne_404 _ h2
    simp [update, successful, hne, h2]
  · intro h
    simp [delete, h]
  · intro h hN
    simp [delete, successful, h, hN]
  · intro h2
    have hne := is2xx_ne_404 _ h2
    simp [delete, successful, hne, h2]

/-- A session answering every request with the same response. -/
def respond (code : Nat) (body : Json) : Session :=
  fun _ => { status_code := code, body := body }

/-- A concrete dataset, with the URL of the spec's examples. -/
def sampleDataset : Dataset := ⟨⟨"", "/datasets/7"⟩⟩

/-- A concrete well-formed wire body for an attribute named "foo". -/
def sampleBody : Json :=
  Json.obj [ ("name", Json.str "foo")
           , ("isNullable", Json.bool true)
           , ("type", Json.obj [("baseType", Json.str "STRING")]) ]

/-- C1 instantiated: 404, 500 and 200 responses for each of the three
item operations at concrete inputs. -/
theorem C1_item_status_mapping_witness :
    from_resource_id (respond 404 Json.null) sampleDataset "foo"
      = (.error (.attributeNotFound "/datasets/7/attributes/foo"),
         [Request.get "/datasets/7/attributes/foo"])
    ∧ (from_resource_id (respond 500 Json.null) sampleDataset "foo").1
      = .error (.httpError 500)
    ∧ (from_resource_id (respond 200 sampleBody) sampleDataset "foo").1
      = _from_json (attribute_url sampleDataset "foo") sampleBody
    ∧ (update (respond 404 Json.null) sampleAttr none).1
      = .error (.attributeNotFound sampleAttr.url.toStr)
    ∧ (update (respond 500 Json.null) sampleAttr none).1
      = .error (.httpError 500)
    ∧ (update (respond 200 sampleBody) sampleAttr none).1
      = _from_json sampleAttr.url sampleBody
    ∧ (delete (respond 404 Json.null) sampleAttr).1
      = .error (.attributeNotFound sampleAttr.url.toStr)
    ∧ (delete (respond 500 Json.null) sampleAttr).1
      = .error (.httpError 500)
    ∧ (delete (respond 200 Json.null) sampleAttr).1 = .ok () :=
  ⟨(C1_item_status_mapping (respond 404 Json.null) sampleDataset "foo" sampleAttr none).1.1 rfl,
   (C1_item_status_mapping (respond 500 Json.null) sampleDataset "foo" sampleAttr none).1.2.1
     (by decide) (by decide),
   (C1_item_status_mapping (respond 200 sampleBody) sampleDataset "foo" sampleAttr none).1.2.2
     (by decide),
   (C1_item_status_mapping (respond 404 Json.null) sampleDataset "foo" sampleAttr none).2.1.1 rfl,
   (C1_item_status_mapping (respond 500 Json.null) sampleDataset "foo" sampleAttr none).2.1.2.1
     (by decide) (by decide),
   (C1_item_status_mapping (respond 200 sampleBody) sampleDataset "foo" sampleAttr none).2.1.2.2
     (by decide),
   (C1_item_status_mapping (respond 404 Json.null) sampleDataset "foo" sampleAttr none).2.2.1 rfl,
   (C1_item_status_mapping (respond 500 Json.null) sampleDataset "foo" sampleAttr none).2.2.2.1
     (by decide) (by decide),
   (C1_item_status_mapping (respond 200 Json.null) sampleDataset "foo" sampleAttr none).2.2.2.2
     (by decide)⟩

/-- A 2xx status is never 409. -/
lemma is2xx_ne_409 (n : Nat) (h : is2xx n = true) : n ≠ 409 := by
  intro he
  subst he
  exact absurd h (by decide)

/-- C2: on the network path of creation, a 409 response makes the call
fail with AttributeExists carrying the prospective item URL (collection
URL ++ "/" ++ name) and no attribute is produced, while a 2xx response
yields exactly the deserialization of the response body at that same
prospective item URL. -/
theorem C2_create_conflict (s : Session) (d : Dataset) (name : String)
    (n : Bool) (t : AttributeType) (descr : Option String) :
    ((s (Request.post (collection_url d).toStr (Json.obj (create_body name n t descr)))).status_code = 409 →
       (_create s d name n t descr).1
         = .error (.attributeExists (item_url (collection_url d) name).toStr))
    ∧ (is2xx (s (Request.post (collection_url d).toStr (Json.obj (create_body name n t descr)))).status_code = true →
       (_create s d name n t descr).1
         = _from_json (item_url (collection_url d) name)
             (s (Request.post (collection_url d).toStr (Json.obj (create_body name n t descr)))).body) := by
  constructor
  · intro h
    cases descr <;>
    · simp [create_body, collection_url] at h
      simp [_create, create_body, item_url, collection_url, h]
  · intro h2
    have hne := is2xx_ne_409 _ h2
    cases descr <;>
    · simp [create_body, collection_url] at h2 hne
      simp [_create, create_body, item_url, collection_url, successful, h2, hne]

/-- C2 instantiated: a 409 on create of "foo" under dataset /datasets/7
carries URL /datasets/7/attributes/foo, and a 200 deserializes the
response body at that URL. -/
theorem C2_create_conflict_witness :
    (_create (respond 409 Json.null) sampleDataset "foo" true
        ⟨Json.obj [("baseType", Json.str "STRING")]⟩ none).1
      = .error (.attributeExists "/datasets/7/attributes/foo")
    ∧ (_create (respond 200 sampleBody) sampleDataset "foo" true
        ⟨Json.obj [("baseType", Json.str "STRING")]⟩ none).1
      = _from_json (item_url (collection_url sampleDataset) "foo") sampleBody :=
  ⟨(C2_create_conflict (respond 409 Json.null) sampleDataset "foo" true
      ⟨Json.obj [("baseType", Json.str "STRING")]⟩ none).1 rfl,
   (C2_create_conflict (respond 200 sampleBody) sampleDataset "foo" true
      ⟨Json.obj [("baseType", Json.str "STRING")]⟩ none).2 (by decide)⟩

/-- C3: a reserved name makes create fail with ReservedAttributeName
carrying the name while the session is never invoked (the request trace
is empty); a non-reserved name passes the guard and the creation POST is
issued. -/
theorem C3_reserved_name_guard (s : Session) (d : Dataset) (name : String)
    (n : Bool) (t : AttributeType) (descr : Option String) :
    (name ∈ _RESERVED_NAMES →
       create s d name n t descr = (.error (.reservedAttributeName name), []))
    ∧ (name ∉ _RESERVED_NAMES →
       (create s d name n t descr).2
         = [Request.post (collection_url d).toStr
             (Json.obj (create_body name n t descr))]) := by
  constructor
  · intro h
    simp [create, h]
  · intro h
    show (if name ∈ _RESERVED_NAMES then _ else _ : Except TamrError Attribute × List Request).2 = _
    rw [if_neg h]
    exact _create_trace s d name n t descr

/-- C3 instantiated: the reserved name "tamr_id" is rejected with no
request issued, while "foo" leads to the creation POST. -/
theorem C3_reserved_name_guard_witness :
    create (respond 200 sampleBody) sampleDataset "tamr_id" true
        ⟨Json.obj [("baseType", Json.str "STRING")]⟩ none
      = (.error (.reservedAttributeName "tamr_id"), [])
    ∧ (create (respond 200 sampleBody) sampleDataset "foo" true
        ⟨Json.obj [("baseType", Json.str "STRING")]⟩ none).2
      = [Request.post "/datasets/7/attributes"
          (Json.obj (create_body "foo" true
            ⟨Json.obj [("baseType", Json.str "STRING")]⟩ none))] :=
  ⟨(C3_reserved_name_guard (respond 200 sampleBody) sampleDataset "tamr_id" true
      ⟨Json.obj [("baseType", Json.str "STRING")]⟩ none).1 (by decide),
   (C3_reserved_name_guard (respond 200 sampleBody) sampleDataset "foo" true
      ⟨Json.obj [("baseType", Json.str "STRING")]⟩ none).2 (by decide)⟩

/-- C9: for a non-reserved name the guarded create is literally the
unguarded _create (same result and same issued requests), and _create
itself always issues exactly the creation POST, with no reserved-name
check of its own. -/
theorem C9_guarded_refines_unguarded (s : Session) (d : Dataset) (name : String)
    (n : Bool) (t : AttributeType) (descr : Option String) :
    (name ∉ _RESERVED_NAMES →
       create s d name n t descr = _create s d name n t descr)
    ∧ (_create s d name n t descr).2
      = [Request.post (collection_url d).toStr
          (Json.obj (create_body name n t descr))] := by
  constructor
  · intro h
    simp [create, h]
  · exact _create_trace s d name n t descr

/-- C9 instantiated: at the non-reserved name "foo" the two creation
paths agree; at the reserved name "tamr_id" the unguarded path still
issues the POST. -/
theorem C9_guarded_refines_unguarded_witness :
    create (respond 200 sampleBody) sampleDataset "foo" true
        ⟨Json.obj [("baseType", Json.str "STRING")]⟩ none
      = _create (respond 200 sampleBody) sampleDataset "foo" true
        ⟨Json.obj [("baseType", Json.str "STRING")]⟩ none
    ∧ (_create (respond 200 sampleBody) sampleDataset "tamr_id" true
        ⟨Json.obj [("baseType", Json.str "STRING")]⟩ none).2
      = [Request.post "/datasets/7/attributes"
          (Json.obj (create_body "tamr_id" true
            ⟨Json.obj [("baseType", Json.str "STRING")]⟩ none))] :=
  ⟨(C9_guarded_refines_unguarded (respond 200 sampleBody) sampleDataset "foo" true
      ⟨Json.obj [("baseType", Json.str "STRING")]⟩ none).1 (by decide),
   (C9_guarded_refines_unguarded (respond 200 sampleBody) sampleDataset "tamr_id" true
      ⟨Json.obj [("baseType", Json.str "STRING")]⟩ none).2⟩

/-- Successful deserialization pins every field: the URL is the supplied
one and name, isNullable and type are exactly the corresponding fields
of the wire body. -/
lemma _from_json_ok_fields (u : URL) (data : Json) (b : Attribute)
    (h : _from_json u data = .ok b) :
    b.url = u
    ∧ data.pyIndex "name" = .ok b.name
    ∧ data.pyIndex "isNullable" = .ok b.is_nullable
    ∧ data.pyIndex "type" = .ok (attribute_type.to_json b.type) := by
  simp only [_from_json, bind, Except.bind] at h
  cases hn : data.pyIndex "name" with
  | error e => rw [hn] at h; cases h
  | ok vn =>
      rw [hn] at h
      cases hi : data.pyIndex "isNullable" with
      | error e => rw [hi] at h; cases h
      | ok vi =>
          rw [hi] at h
          cases ht : data.pyIndex "type" with
          | error e => rw [ht] at h; cases h
          | ok vt =>
              rw [ht] at h
              cases h
              exact ⟨rfl, rfl, rfl, rfl⟩

/-- A successful update must have taken the deserialization branch: the
response to the PUT was 2xx and its body deserialized to the result. -/
lemma update_ok_from_json (s : Session) (a : Attribute) (descr : Option String)
    (b : Attribute) (h : (update s a descr).1 = .ok b) :
    _from_json a.url
      (s (Request.put a.url.toStr (Json.obj [("description", optStr descr)]))).body
      = .ok b := by
  simp only [update, successful] at h
  by_cases h404 : (s (Request.put a.url.toStr (Json.obj [("description", optStr descr)]))).status_code = 404
  · rw [if_pos h404] at h; cases h
  · rw [if_neg h404] at h
    by_cases h2 : is2xx (s (Request.put a.url.toStr (Json.obj [("description", optStr descr)]))).status_code = true
    · rw [if_pos h2] at h; exact h
    · rw [if_neg h2] at h; cases h

/-- C5 counterexample: a successful update whose 200 response body names
the attribute "other" returns an attribute whose name differs from the
input attribute's name — the claim's "regardless of the server's
response body" fails on the code, which deserializes the response
body. -/
theorem C5_counterexample :
    (update (respond 200 (Json.obj
        [ ("name", Json.str "other")
        , ("isNullable", Json.bool false)
        , ("type", Json.obj [("baseType", Json.str "STRING")]) ]))
      sampleAttr none).1
      = .ok { url := sampleAttr.url
            , name := Json.str "other"
            , type := ⟨Json.obj [("baseType", Json.str "STRING")]⟩
            , is_nullable := Json.bool false
            , _json := [ ("name", Json.str "other")
                       , ("isNullable", Json.bool false)
                       , ("type", Json.obj [("baseType", Json.str "STRING")]) ]
            , description := Json.null }
    ∧ Json.str "other" ≠ sampleAttr.name := by
  constructor
  · rfl
  · simp [sampleAttr]

/-- C5 amended: every successful update keeps the input attribute's URL,
and keeps name, is_nullable and type exactly when the server's response
body echoes them; only the description (read from the response body) may
change without the body diverging from the input attribute. -/
theorem C5_update_frame (s : Session) (a : Attribute) (descr : Option String)
    (b : Attribute) (h : (update s a descr).1 = .ok b) :
    b.url = a.url
    ∧ ((s (Request.put a.url.toStr (Json.obj [("description", optStr descr)]))).body.pyIndex "name"
          = .ok a.name → b.name = a.name)
    ∧ ((s (Request.put a.url.toStr (Json.obj [("description", optStr descr)]))).body.pyIndex "isNullable"
          = .ok a.is_nullable → b.is_nullable = a.is_nullable)
    ∧ ((s (Request.put a.url.toStr (Json.obj [("description", optStr descr)]))).body.pyIndex "type"
          = .ok (attribute_type.to_json a.type) → b.type = a.type) := by
  have hj := update_ok_from_json s a descr b h
  obtain ⟨hu, hn, hi, ht⟩ := _from_json_ok_fields _ _ _ hj
  refine ⟨hu, ?_, ?_, ?_⟩
  · intro he
    rw [he] at hn
    exact (Except.ok.inj hn).symm
  · intro he
    rw [he] at hi
    exact (Except.ok.inj hi).symm
  · intro he
    rw [he] at ht
    have h2 := Except.ok.inj ht
    exact (congrArg attribute_type.from_json h2).symm

/-- C5 amended claim instantiated: a 200 response echoing the attribute
(with an updated description) leaves url, name, is_nullable and type
unchanged. -/
theorem C5_update_frame_witness :
    ∃ b, (update (respond 200 (Json.obj
        [ ("name", Json.str "attr")
        , ("isNullable", Json.bool false)
        , ("type", Json.obj [("baseType", Json.str "STRING")])
        , ("description", Json.str "updated") ]))
      sampleAttr (some "updated")).1 = .ok b
    ∧ b.url = sampleAttr.url ∧ b.name = sampleAttr.name
    ∧ b.is_nullable = sampleAttr.is_nullable ∧ b.type = sampleAttr.type := by
  refine ⟨_, rfl, ?_⟩
  have := C5_update_frame (respond 200 (Json.obj
        [ ("name", Json.str "attr")
        , ("isNullable", Json.bool false)
        , ("type", Json.obj [("baseType", Json.str "STRING")])
        , ("description", Json.str "updated") ]))
      sampleAttr (some "updated") _ rfl
  exact ⟨this.1, this.2.1 rfl, this.2.2.1 rfl, this.2.2.2 rfl⟩

/-- The collection deserialization loop: when every element carries a
string "name" and deserializes at the derived item URL, the loop
succeeds with one attribute per element, in order, each being the
deserialization of its element at collection URL ++ "/" ++ name. -/
lemma fromDatasetLoop_spec (u : URL) (items : List Json)
    (hall : ∀ j ∈ items, ∃ nm a, j.pyIndex "name" = .ok (Json.str nm)
        ∧ _from_json (item_url u nm) j = .ok a) :
    ∃ attrs, fromDatasetLoop u items = .ok attrs
      ∧ attrs.length = items.length
      ∧ ∀ (i : Nat) (j : Json), items[i]? = some j →
          ∃ nm a, j.pyIndex "name" = .ok (Json.str nm)
            ∧ _from_json (item_url u nm) j = .ok a
            ∧ attrs[i]? = some a := by
  induction items with
  | nil =>
      exact ⟨[], rfl, rfl, by intro i j hj; simp at hj⟩
  | cons j rest ih =>
      obtain ⟨nm, a, hnm, hfj⟩ := hall j (List.mem_cons_self j rest)
      obtain ⟨attrs, hloop, hlen, hidx⟩ :=
        ih (fun j2 hj2 => hall j2 (List.mem_cons_of_mem j hj2))
      refine ⟨a :: attrs, ?_, by simp [hlen], ?_⟩
      · simp only [item_url] at hfj
        simp [fromDatasetLoop, hnm, hfj, hloop, Json.fstr, bind, Except.bind]
      · intro i j2 hj2
        cases i with
        | zero =>
            simp only [List.getElem?_cons_zero, Option.some.injEq] at hj2
            subst hj2
            exact ⟨nm, a, hnm, hfj, by simp⟩
        | succ k =>
            simp only [List.getElem?_cons_succ] at hj2 ⊢
            exact hidx k j2 hj2

/-- C6: a successful collection fetch whose body is an array of objects,
each with a string "name" that deserializes at the derived item URL,
returns exactly one attribute per element in server order, the i-th
being the deserialization of the i-th element at collection URL ++ "/"
++ its name, where the collection URL is dataset URL ++ "/attributes". -/
theorem C6_from_dataset_all_order (s : Session) (d : Dataset) (items : List Json)
    (h2 : is2xx (s (Request.get (collection_url d).toStr)).status_code = true)
    (hb : (s (Request.get (collection_url d).toStr)).body = Json.arr items)
    (hall : ∀ j ∈ items, ∃ nm a, j.pyIndex "name" = .ok (Json.str nm)
        ∧ _from_json (item_url (collection_url d) nm) j = .ok a) :
    ∃ attrs, (from_dataset_all s d).1 = .ok attrs
      ∧ attrs.length = items.length
      ∧ ∀ (i : Nat) (j : Json), items[i]? = some j →
          ∃ nm a, j.pyIndex "name" = .ok (Json.str nm)
            ∧ _from_json (item_url (collection_url d) nm) j = .ok a
            ∧ attrs[i]? = some a := by
  obtain ⟨attrs, hloop, hlen, hidx⟩ := fromDatasetLoop_spec (collection_url d) items hall
  refine ⟨attrs, ?_, hlen, hidx⟩
  simp only [collection_url] at h2 hb hloop
  simp [from_dataset_all, successful, h2, hb, hloop]

/-- A concrete collection element named "a". -/
def sampleItemA : Json :=
  Json.obj [ ("name", Json.str "a")
           , ("isNullable", Json.bool true)
           , ("type", Json.str "STRING") ]

/-- A concrete collection element named "b". -/
def sampleItemB : Json :=
  Json.obj [ ("name", Json.str "b")
           , ("isNullable", Json.bool false)
           , ("type", Json.str "STRING") ]

/-- C6 instantiated: the collection response [{"name":"a",...},
{"name":"b",...}] yields two attributes in order, at item URLs derived
from names "a" and "b". -/
theorem C6_from_dataset_all_order_witness :
    ∃ attrs,
      (from_dataset_all (respond 200 (Json.arr [sampleItemA, sampleItemB])) sampleDataset).1
        = .ok attrs
      ∧ attrs.length = [sampleItemA, sampleItemB].length
      ∧ ∀ (i : Nat) (j : Json), [sampleItemA, sampleItemB][i]? = some j →
          ∃ nm a, j.pyIndex "name" = .ok (Json.str nm)
            ∧ _from_json (item_url (collection_url sampleDataset) nm) j = .ok a
            ∧ attrs[i]? = some a :=
  C6_from_dataset_all_order (respond 200 (Json.arr [sampleItemA, sampleItemB]))
    sampleDataset [sampleItemA, sampleItemB] (by decide) rfl
    (by
      intro j hj
      rcases List.mem_cons.mp hj with h | h
      · subst h
        exact ⟨"a", _, rfl, rfl⟩
      · rcases List.mem_cons.mp h with h2 | h2
        · subst h2
          exact ⟨"b", _, rfl, rfl⟩
        · simp at h2)
